import Mathlib

/-!
# Verification of the Gusto browser-testing backend

A shallow embedding of the backend of the Gusto repository (an AI-driven
website smoke-testing service) together with proofs about the embedded
operations.  The embedding follows the JavaScript source:

* `src/backend/database/db.js` — the SQLite persistence layer
  (`createTest`, `updateTestStatus`, `getTest`);
* `src/backend/routes/test-routes.js` — the HTTP handlers, the in-memory
  `activeSessions` map, the `testQueue` FIFO list, `processQueue` and the
  synchronous prefix/suffix of `runTestInBackground`;
* the report service (`generateReport`);
* the agent service (`analyzeAndAct` response parsing, `executeAction`,
  `testWebsite`);
* `src/backend/services/browserbase-service.js` (`getRecordingUrl`).

JS `Map`s become association lists, SQLite tables become lists of rows,
ISO-8601 timestamps become integers (epoch milliseconds: `new Date(b) -
new Date(a)` is `b - a`), and the external vendor calls (session creation,
session retrieval, the model inference call, Playwright page operations)
become explicit oracle parameters, `Except`/`Option` valued where the
JavaScript call can reject.
-/

namespace Gusto

/-! ## Action-log data model

One entry of the in-memory `actionLogs` array built by the execution job
and consumed by `generateReport` (report-service).  Fields mirror the JS
object `{timestamp, action: {action, target, value, reasoning}, result:
{success, message, error}, context: {url, title}}`. -/

structure ActionData where
  action : String
  target : Option String := none
  value : Option String := none
  reasoning : Option String := none
deriving DecidableEq

structure ExecResult where
  success : Bool
  message : String
  error : Option String := none
deriving DecidableEq

structure LogContext where
  url : Option String := none
  title : Option String := none
deriving DecidableEq

structure ActionLogEntry where
  timestamp : Int
  action : ActionData
  result : ExecResult
  context : LogContext
deriving DecidableEq

/-- JS string truthiness: `undefined`/`null`/`""` are falsy; a non-empty
string is truthy.  Returns the string exactly when it is truthy, so
`(truthyStr o).getD d` is the JS expression `o || d`. -/
def truthyStr : Option String → Option String
  | none => none
  | some s => if s = "" then none else some s

/-- First-seen-order deduplication: the JS idiom
`[...new Set(xs)]` (a `Set` preserves insertion order and keeps the first
occurrence of each element). -/
def setDedup (seen : List String) : List String → List String
  | [] => []
  | x :: xs => if x ∈ seen then setDedup seen xs else x :: setDedup (x :: seen) xs

/-- `xs.map((x, i) => f i x)` starting the index at `n`. -/
def mapWithStep (f : Nat → α → β) : Nat → List α → List β
  | _, [] => []
  | n, x :: xs => f n x :: mapWithStep f (n + 1) xs

/-! ## Report data model (report-service `generateReport`) -/

structure NavStep where
  step : Nat
  url : String
  title : String
  timestamp : Int
deriving DecidableEq

structure IssueDetails where
  action : String
  target : Option String
  error : Option String
deriving DecidableEq

structure Issue where
  severity : String
  type : String
  message : String
  timestamp : Int
  page : Option String
  details : IssueDetails
deriving DecidableEq

structure TimelineEntry where
  step : Nat
  timestamp : Int
  action : String
  target : Option String
  value : Option String
  reasoning : Option String
  success : Bool
  message : String
  pageUrl : Option String
  pageTitle : Option String
deriving DecidableEq

structure ReportSummary where
  pagesVisited : Nat
  actionsPerformed : Nat
  issuesFound : Nat
  duration : Int
  successRate : String
deriving DecidableEq

structure PerformanceMetrics where
  totalDuration : Int
  averageActionTime : ℚ
  successRate : ℚ
deriving DecidableEq

structure Report where
  testId : String
  browserbaseSessionId : String
  recordingUrl : String
  timestamp : Int
  summary : ReportSummary
  navigationPath : List NavStep
  pagesVisited : List String
  actionsTimeline : List TimelineEntry
  issues : List Issue
  performanceMetrics : PerformanceMetrics
deriving DecidableEq

/-- `Number.prototype.toFixed(2)` on a rational (rounded to two decimal
places and rendered with exactly two fractional digits). -/
def toFixed2 (q : ℚ) : String :=
  let n : Int := round (q * 100)
  let m := n.natAbs
  (if n < 0 then "-" else "") ++ toString (m / 100) ++ "."
    ++ (if m % 100 < 10 then "0" else "") ++ toString (m % 100)

/-- Report-service `generateReport(testId, actionLogs, browserbaseSessionId)`.
The two effectful inputs of the JS function are passed explicitly: the
`recordingUrl` obtained from `getRecordingUrl` and `now` (the
`new Date().toISOString()` stamped on the report).  Persisting the report
(`createReport`) is handled by the system model below; the function here is
the report value the JS code builds and returns. -/
def generateReport (testId : String) (actionLogs : List ActionLogEntry)
    (browserbaseSessionId : String) (recordingUrl : String) (now : Int) : Report :=
  let pagesVisited := setDedup [] (actionLogs.filterMap (fun l => truthyStr l.context.url))
  let navigationPath := mapWithStep
    (fun i l => { step := i + 1
                  url := (truthyStr l.context.url).getD ""
                  title := (truthyStr l.context.title).getD "Unknown"
                  timestamp := l.timestamp })
    0 (actionLogs.filter (fun l => (truthyStr l.context.url).isSome))
  let issues := (actionLogs.filter (fun l => !l.result.success)).map (fun l =>
    { severity := "error"
      type := "action_failed"
      message := "Failed to " ++ l.action.action ++ ": "
        ++ ((truthyStr l.result.error).getD l.result.message)
      timestamp := l.timestamp
      page := l.context.url
      details := { action := l.action.action, target := l.action.target,
                   error := l.result.error } })
  let actionsTimeline := mapWithStep
    (fun i l => { step := i + 1
                  timestamp := l.timestamp
                  action := l.action.action
                  target := l.action.target
                  value := l.action.value
                  reasoning := l.action.reasoning
                  success := l.result.success
                  message := l.result.message
                  pageUrl := l.context.url
                  pageTitle := l.context.title })
    0 actionLogs
  let duration : Int :=
    match actionLogs.head?, actionLogs.getLast? with
    | some a, some b => b.timestamp - a.timestamp
    | _, _ => 0
  let successCount := (actionLogs.filter (fun l => l.result.success)).length
  let successRate : ℚ :=
    if actionLogs.length > 0 then ((successCount : ℚ) / (actionLogs.length : ℚ)) * 100 else 0
  { testId := testId
    browserbaseSessionId := browserbaseSessionId
    recordingUrl := recordingUrl
    timestamp := now
    summary := { pagesVisited := pagesVisited.length
                 actionsPerformed := actionLogs.length
                 issuesFound := issues.length
                 duration := duration
                 successRate := toFixed2 successRate ++ "%" }
    navigationPath := navigationPath
    pagesVisited := pagesVisited
    actionsTimeline := actionsTimeline
    issues := issues
    performanceMetrics :=
      { totalDuration := duration
        averageActionTime :=
          if actionLogs.length > 0 then (duration : ℚ) / (actionLogs.length : ℚ) else 0
        successRate := successRate } }

/-- C3: for every action-log list, the built report's `issuesFound` counts
the entries whose success flag is false, its numeric `successRate` is
`100 × successes / total` (`0` for the empty list), and its `duration` is
the timestamp delta between the first and last entry, which is `0` whenever
the list has fewer than two entries. -/
theorem generateReport_metrics (testId : String) (logs : List ActionLogEntry)
    (sid url : String) (now : Int) :
    (generateReport testId logs sid url now).summary.issuesFound
        = logs.countP (fun l => !l.result.success)
    ∧ (generateReport testId logs sid url now).performanceMetrics.successRate
        = (if logs.length = 0 then (0 : ℚ)
           else 100 * (logs.countP (fun l => l.result.success) : ℚ) / (logs.length : ℚ))
    ∧ (generateReport testId logs sid url now).summary.duration
        = (match logs.head?, logs.getLast? with
           | some a, some b => b.timestamp - a.timestamp
           | _, _ => 0)
    ∧ (logs.length < 2 → (generateReport testId logs sid url now).summary.duration = 0) := by
  refine ⟨?_, ?_, rfl, ?_⟩
  · simp [generateReport, List.countP_eq_length_filter]
  · by_cases h0 : logs.length = 0
    · simp [generateReport, h0]
    · have hpos : 0 < logs.length := Nat.pos_of_ne_zero h0
      simp [generateReport, List.countP_eq_length_filter, h0, hpos]
      ring
  · intro hlt
    rcases logs with _ | ⟨a, rest⟩
    · simp [generateReport]
    · rcases rest with _ | ⟨b, rest⟩
      · simp [generateReport]
      · simp only [List.length_cons] at hlt
        omega

/-- Concrete instantiation of `generateReport_metrics` on a one-entry log. -/
def c3Entry : ActionLogEntry :=
  { timestamp := 1000
    action := { action := "navigate", reasoning := some "Initial navigation to target URL" }
    result := { success := true, message := "Navigated to https://example.com" }
    context := { url := some "https://example.com", title := some "Example" } }

/-- Witness for C3 at a concrete one-entry log: the duration is zero. -/
theorem generateReport_metrics_witness :
    (generateReport "t1" [c3Entry] "sess1" "https://example.org/rec" 0).summary.duration = 0 :=
  (generateReport_metrics "t1" [c3Entry] "sess1" "https://example.org/rec" 0).2.2.2 (by decide)

/-- C9: the report builder is a deterministic function of the action-log
list and session id — its summary, navigation-path and issues sections do
not even depend on the fetched recording URL or the report timestamp, so
two calls on identical inputs produce identical sections. -/
theorem generateReport_deterministic (testId : String) (logs : List ActionLogEntry)
    (sid : String) (url₁ url₂ : String) (now₁ now₂ : Int) :
    (generateReport testId logs sid url₁ now₁).summary
        = (generateReport testId logs sid url₂ now₂).summary
    ∧ (generateReport testId logs sid url₁ now₁).navigationPath
        = (generateReport testId logs sid url₂ now₂).navigationPath
    ∧ (generateReport testId logs sid url₁ now₁).issues
        = (generateReport testId logs sid url₂ now₂).issues :=
  ⟨rfl, rfl, rfl⟩

/-! ## Persistence layer (`db.js`) -/

/-- One row of the `tests` table. -/
structure TestRow where
  id : String
  url : String
  status : String
  created_at : Int
  started_at : Option Int := none
  completed_at : Option Int := none
  browserbase_session_id : Option String := none
  error : Option String := none
deriving DecidableEq

/-- `updateTestStatus` on a single row: `running` also stamps `started_at`;
`completed`/`failed` also stamp `completed_at` and write the error column;
every other status (in particular `stopped` and `queued`) touches only the
status column and discards the `error` argument. -/
def updateTestStatusRow (row : TestRow) (status : String) (error : Option String)
    (now : Int) : TestRow :=
  if status = "running" then
    { row with status := status, started_at := some now }
  else if status = "completed" ∨ status = "failed" then
    { row with status := status, completed_at := some now, error := error }
  else
    { row with status := status }

/-- The `tests` table; `id` is the primary key. -/
abbrev TestsTable := List TestRow

/-- `getTest`: `SELECT * FROM tests WHERE id = ?`. -/
def getTestDb (db : TestsTable) (testId : String) : Option TestRow :=
  db.find? (fun r => r.id = testId)

/-- `createTest`: an `INSERT`; duplicates of the primary key make SQLite
throw a UNIQUE-constraint error (`better-sqlite3` raises it synchronously). -/
def createTestDb (db : TestsTable) (testId url : String) (sid : Option String)
    (now : Int) : Except String TestsTable :=
  if (getTestDb db testId).isSome then
    .error "UNIQUE constraint failed: tests.id"
  else
    .ok (db ++ [{ id := testId, url := url, status := "pending", created_at := now,
                  browserbase_session_id := sid }])

/-- `updateTestStatus` at the table level: `UPDATE tests ... WHERE id = ?`. -/
def updateDb (db : TestsTable) (testId status : String) (error : Option String)
    (now : Int) : TestsTable :=
  db.map (fun r => if r.id = testId then updateTestStatusRow r status error now else r)

theorem updateTestStatusRow_id (row : TestRow) (status : String)
    (error : Option String) (now : Int) :
    (updateTestStatusRow row status error now).id = row.id := by
  unfold updateTestStatusRow
  split
  · rfl
  · split <;> rfl

theorem getTestDb_updateDb (db : TestsTable) (testId status : String)
    (error : Option String) (now : Int) :
    getTestDb (updateDb db testId status error now) testId
      = (getTestDb db testId).map (fun r => updateTestStatusRow r status error now) := by
  induction db with
  | nil => rfl
  | cons r rest ih =>
    by_cases h : r.id = testId
    · have hid : (updateTestStatusRow r status error now).id = testId := by
        rw [updateTestStatusRow_id, h]
      simp only [updateDb, List.map_cons, if_pos h, getTestDb]
      rw [List.find?_cons_of_pos _ (by simp [hid]), List.find?_cons_of_pos _ (by simp [h])]
      simp
    · simp only [updateDb, List.map_cons, if_neg h, getTestDb]
      rw [List.find?_cons_of_neg _ (by simp [h]), List.find?_cons_of_neg _ (by simp [h])]
      exact ih

/-! ## In-memory state and HTTP layer (`test-routes.js`)

`activeSessions` is a JS `Map` (insertion-ordered, keys unique);
`testQueue` is a JS array used as a FIFO; `isProcessingQueue` is the
re-entrancy flag of `processQueue`.  Background jobs
(`runTestInBackground`) are split at their suspension points: starting a
job performs its synchronous prefix (status `running`, `activeSessions`
entry); the asynchronous remainder is delivered later as a separate
finish event, successful or failing — a manual stop does not cancel an
in-flight job. -/

structure SessEntry where
  status : String
  queuePosition : Option Nat := none
deriving DecidableEq

/-- `Map.get`. -/
def mapGet (m : List (String × SessEntry)) (k : String) : Option SessEntry :=
  (m.find? (fun p => p.1 = k)).map (fun p => p.2)

/-- `Map.set`: replace in place if the key exists, else append. -/
def mapSet (m : List (String × SessEntry)) (k : String) (v : SessEntry) :
    List (String × SessEntry) :=
  if (m.find? (fun p => p.1 = k)).isSome then
    m.map (fun p => if p.1 = k then (k, v) else p)
  else m ++ [(k, v)]

/-- `Map.delete`. -/
def mapDelete (m : List (String × SessEntry)) (k : String) :
    List (String × SessEntry) :=
  m.filter (fun p => !(p.1 = k : Bool))

/-- Whole backend state: the database, the `activeSessions` map, the
`testQueue` FIFO (testId, url), the set of in-flight background jobs, the
report rows, and the `isProcessingQueue` flag. -/
structure Sys where
  db : TestsTable := []
  active : List (String × SessEntry) := []
  queue : List (String × String) := []
  jobs : List String := []
  reports : List String := []
  isProcessingQueue : Bool := false
deriving DecidableEq

def initSys : Sys := {}

/-- An HTTP response: status code plus the body fields the claims consult. -/
structure Resp where
  code : Nat
  body : List (String × String) := []
deriving DecidableEq

/-- The loop body of `processQueue`, structurally recursive on a fuel that
bounds the number of pops (the queue length at entry suffices, as every
iteration that does not break pops one element).  `sessions` is the
Browserbase `createSession` oracle for queued tests.  Faithful to the
source: the loop breaks while `activeSessions.size >= 1`; a pop calls
`createSession` and then `createTest` (an `INSERT`, although a row with
that id already exists), starts `runTestInBackground` on success, and on
any thrown error marks the popped test `failed` and keeps going. -/
def processQueueGo (sessions : String → Except String String) (now : Int) :
    Nat → Sys → Sys
  | 0, sys => sys
  | fuel + 1, sys =>
    match sys.queue with
    | [] => sys
    | (tid, url) :: rest =>
      if sys.active.length ≥ 1 then sys
      else
        let sys1 : Sys := { sys with queue := rest }
        match sessions tid with
        | .error msg =>
          processQueueGo sessions now fuel
            { sys1 with db := updateDb sys1.db tid "failed" (some msg) now }
        | .ok sid =>
          match createTestDb sys1.db tid url (some sid) now with
          | .error msg =>
            processQueueGo sessions now fuel
              { sys1 with db := updateDb sys1.db tid "failed" (some msg) now }
          | .ok dbIns =>
            processQueueGo sessions now fuel
              { sys1 with
                  db := updateDb dbIns tid "running" none now
                  active := mapSet sys1.active tid { status := "running" }
                  jobs := sys1.jobs ++ [tid] }

/-- `processQueue()`: no-op when already processing or the queue is empty;
otherwise runs the drain loop under the re-entrancy flag. -/
def processQueue (sessions : String → Except String String) (now : Int)
    (sys : Sys) : Sys :=
  if sys.isProcessingQueue || sys.queue.isEmpty then sys
  else
    let s := processQueueGo sessions now sys.queue.length
      { sys with isProcessingQueue := true }
    { s with isProcessingQueue := false }

/-- `POST /test/start` for a syntactically valid URL.  `sess` is the
outcome of `createSession()` for the immediate-admission branch.  At the
concurrency limit (`activeSessions.size >= 1`) the run is created
`queued`, pushed on `testQueue`, and mirrored in `activeSessions`;
otherwise the session is created, the row inserted, and the synchronous
prefix of `runTestInBackground` runs (status `running`, job in flight).
If `createSession` rejects, the handler answers 500 — note that no test
row has been created at that point. -/
def startHandler (sys : Sys) (testId url : String)
    (sess : Except String String) (now : Int) : Sys × Resp :=
  if sys.active.length ≥ 1 then
    match createTestDb sys.db testId url none now with
    | .error msg => (sys, { code := 500, body := [("message", msg)] })
    | .ok dbIns =>
      let db2 := updateDb dbIns testId "queued" none now
      let q := sys.queue ++ [(testId, url)]
      ({ sys with
          db := db2
          queue := q
          active := mapSet sys.active testId
            { status := "queued", queuePosition := some q.length } },
       { code := 200,
         body := [("testId", testId), ("status", "queued"),
                  ("queuePosition", toString q.length)] })
  else
    match sess with
    | .error msg =>
      (sys, { code := 500, body := [("error", "Failed to start test"), ("message", msg)] })
    | .ok sid =>
      match createTestDb sys.db testId url (some sid) now with
      | .error msg => (sys, { code := 500, body := [("message", msg)] })
      | .ok dbIns =>
        ({ sys with
            db := updateDb dbIns testId "running" none now
            active := mapSet sys.active testId { status := "running" }
            jobs := sys.jobs ++ [testId] },
         { code := 200,
           body := [("testId", testId), ("sessionId", sid), ("status", "starting")] })

/-- Tail of a successful `runTestInBackground`: the report is generated and
persisted, the status is set to `completed` — unconditionally, whatever the
row's current status — the `activeSessions` entry is removed, and
`processQueue()` runs. -/
def finishJobOk (sys : Sys) (testId : String)
    (sessions : String → Except String String) (now : Int) : Sys :=
  if testId ∈ sys.jobs then
    processQueue sessions now
      { sys with
          db := updateDb sys.db testId "completed" none now
          active := mapDelete sys.active testId
          jobs := sys.jobs.erase testId
          reports := sys.reports ++ [testId] }
  else sys

/-- Catch block of `runTestInBackground`: status `failed` with the error
message, entry removed, `processQueue()` runs.  No report is written. -/
def finishJobFail (sys : Sys) (testId msg : String)
    (sessions : String → Except String String) (now : Int) : Sys :=
  if testId ∈ sys.jobs then
    processQueue sessions now
      { sys with
          db := updateDb sys.db testId "failed" (some msg) now
          active := mapDelete sys.active testId
          jobs := sys.jobs.erase testId }
  else sys

/-- `POST /test/:testId/stop`: 404 if unknown, 400 (state untouched) unless
the row's status is `running`; otherwise `updateTestStatus(testId,
'stopped', 'Manually stopped by user')` and removal from `activeSessions`.
The background job itself is not cancelled (`jobs` is untouched). -/
def stopHandler (sys : Sys) (testId : String) (now : Int) : Sys × Resp :=
  match getTestDb sys.db testId with
  | none => (sys, { code := 404, body := [("error", "Test not found")] })
  | some row =>
    if row.status = "running" then
      ({ sys with
          db := updateDb sys.db testId "stopped" (some "Manually stopped by user") now
          active := mapDelete sys.active testId },
       { code := 200, body := [("testId", testId), ("status", "stopped")] })
    else
      (sys, { code := 400,
              body := [("error", "Test not running"), ("status", row.status)] })

/-- `GET /test/:testId/report`: 404 if unknown, 400 unless `completed`,
404 if completed without a stored report, else the report body. -/
def reportHandler (sys : Sys) (testId : String) : Resp :=
  match getTestDb sys.db testId with
  | none => { code := 404, body := [("error", "Test not found")] }
  | some row =>
    if row.status = "completed" then
      if testId ∈ sys.reports then { code := 200, body := [("testId", testId)] }
      else { code := 404, body := [("error", "Report not found")] }
    else
      { code := 400, body := [("error", "Test not completed"), ("status", row.status)] }

/-- `GET /test/:testId/status`: the in-memory `activeSessions` entry wins;
only when there is none does the handler fall back to the database row. -/
def statusHandler (sys : Sys) (testId : String) : Resp :=
  match mapGet sys.active testId with
  | some e => { code := 200, body := [("testId", testId), ("status", e.status)] }
  | none =>
    match getTestDb sys.db testId with
    | none => { code := 404, body := [("error", "Test not found")] }
    | some row =>
      { code := 200,
        body := [("testId", testId), ("status", row.status)]
          ++ (match row.error with | some e => [("error", e)] | none => []) }

/-- External events: a start request (with the `createSession` outcome it
would observe), the completion or failure of an in-flight background job,
and a manual stop request. -/
inductive Ev where
  | start (tid url : String) (sess : Except String String)
  | finishOk (tid : String)
  | finishFail (tid msg : String)
  | stop (tid : String)

def step (sessions : String → Except String String) (sys : Sys) : Ev → Sys
  | .start tid url sess => (startHandler sys tid url sess 0).1
  | .finishOk tid => finishJobOk sys tid sessions 0
  | .finishFail tid msg => finishJobFail sys tid msg sessions 0
  | .stop tid => (stopHandler sys tid 0).1

def runEvs (sessions : String → Except String String) (sys : Sys)
    (evs : List Ev) : Sys :=
  evs.foldl (step sessions) sys

/-- A `createSession` oracle that always succeeds. -/
def okSessions : String → Except String String :=
  fun tid => .ok ("sess-" ++ tid)

/-- Start request for A (admitted immediately), start request for B (queued
behind A at position 1), then A's background job completes. -/
def c1Trace : List Ev :=
  [.start "A" "https://a.example" (.ok "sessA"),
   .start "B" "https://b.example" (.ok "sessB"),
   .finishOk "A"]

/-- C1 (evaluated at the failing input): with the limit of 1, starting A and
then B does record B as `queued` at 1-based position 1 while only A is
`running` — but when A's run finishes, the queue does NOT drain.  A test
queued in `/start` is itself inserted into `activeSessions` (status
`queued`), so inside `processQueue` the guard `activeSessions.size >= 1`
is already true because of B's own entry and the loop breaks before
popping anything: after A completes, B is still `queued`, still on
`testQueue`, and no background job for B was ever started. -/
theorem processQueue_never_drains :
    ((getTestDb (runEvs okSessions initSys (c1Trace.take 2)).db "A").map TestRow.status
        = some "running"
      ∧ (getTestDb (runEvs okSessions initSys (c1Trace.take 2)).db "B").map TestRow.status
        = some "queued"
      ∧ (mapGet (runEvs okSessions initSys (c1Trace.take 2)).active "B").map
          SessEntry.queuePosition = some (some 1))
    ∧ (getTestDb (runEvs okSessions initSys c1Trace).db "B").map TestRow.status
        = some "queued"
    ∧ (runEvs okSessions initSys c1Trace).queue = [("B", "https://b.example")]
    ∧ (runEvs okSessions initSys c1Trace).jobs = []
    ∧ (statusHandler (runEvs okSessions initSys c1Trace) "B").body
        = [("testId", "B"), ("status", "queued")] := by
  decide

/-- State after starting A and stopping it while its job is in flight. -/
def c2Stopped : Sys :=
  runEvs okSessions initSys
    [.start "A" "https://a.example" (.ok "sessA"), .stop "A"]

/-- C2 (evaluated at the failing input): a stop request on running A sets
its status to the terminal state `stopped`, but A's background job is not
cancelled, and when it later reaches its unconditional
`updateTestStatus(testId, 'completed')` the row leaves the terminal state
`stopped` for `completed` (with `completed_at` stamped and a report
persisted, so the report endpoint even answers 200 for the stopped run). -/
theorem stopped_run_later_completed :
    (getTestDb c2Stopped.db "A").map TestRow.status = some "stopped"
    ∧ (getTestDb (step okSessions c2Stopped (.finishOk "A")).db "A").map TestRow.status
        = some "completed"
    ∧ (reportHandler (step okSessions c2Stopped (.finishOk "A")) "A").code = 200 := by
  decide

theorem updateTestStatusRow_stopped (row : TestRow) (error : Option String) (now : Int) :
    updateTestStatusRow row "stopped" error now = { row with status := "stopped" } := by
  unfold updateTestStatusRow
  rw [if_neg (by decide), if_neg (by decide)]

/-- C6: a stop request on a run whose stored status is `running` answers
200, leaves the row `stopped`, and an immediately following report request
for that run answers 400 (reports are only served for `completed` runs, and
the stop path writes none); a stop request on a run in any other stored
state answers 400 and returns the whole system state unchanged. -/
theorem stop_semantics (sys : Sys) (tid : String) (row : TestRow) (now : Int)
    (hrow : getTestDb sys.db tid = some row) :
    (row.status = "running" →
      (stopHandler sys tid now).2.code = 200
      ∧ (getTestDb (stopHandler sys tid now).1.db tid).map TestRow.status = some "stopped"
      ∧ (reportHandler (stopHandler sys tid now).1 tid).code = 400)
    ∧ (row.status ≠ "running" →
      stopHandler sys tid now
        = (sys, { code := 400,
                  body := [("error", "Test not running"), ("status", row.status)] })) := by
  constructor
  · intro hrun
    have hdb : getTestDb (stopHandler sys tid now).1.db tid
        = some { row with status := "stopped" } := by
      simp [stopHandler, hrow, hrun, getTestDb_updateDb, updateTestStatusRow_stopped]
    refine ⟨by simp [stopHandler, hrow, hrun], by rw [hdb]; rfl, ?_⟩
    simp [reportHandler, hdb]
  · intro hnot
    simp [stopHandler, hrow, hnot]

/-- A state with one `running` and one `completed` test. -/
def c6Sys : Sys :=
  { db := [{ id := "R", url := "https://r.example", status := "running", created_at := 0,
             started_at := some 0, browserbase_session_id := some "sR" },
           { id := "C", url := "https://c.example", status := "completed", created_at := 0,
             started_at := some 0, completed_at := some 1,
             browserbase_session_id := some "sC" }] }

/-- Witness for C6 at `c6Sys`: stopping running `R` gives 200 / `stopped` /
report 400, and stopping completed `C` gives 400 with the state unchanged. -/
theorem stop_semantics_witness :
    ((stopHandler c6Sys "R" 0).2.code = 200
      ∧ (getTestDb (stopHandler c6Sys "R" 0).1.db "R").map TestRow.status = some "stopped"
      ∧ (reportHandler (stopHandler c6Sys "R" 0).1 "R").code = 400)
    ∧ stopHandler c6Sys "C" 0
        = (c6Sys, { code := 400,
                    body := [("error", "Test not running"), ("status", "completed")] }) :=
  ⟨(stop_semantics c6Sys "R"
      { id := "R", url := "https://r.example", status := "running", created_at := 0,
        started_at := some 0, browserbase_session_id := some "sR" } 0 rfl).1 rfl,
   (stop_semantics c6Sys "C"
      { id := "C", url := "https://c.example", status := "completed", created_at := 0,
        started_at := some 0, completed_at := some 1,
        browserbase_session_id := some "sC" } 0 rfl).2 (by decide)⟩

/-- C10: recording a manual stop touches only the status column.
`updateTestStatus(testId, 'stopped', reason)` falls into the generic
`UPDATE tests SET status = ? WHERE id = ?` branch: `completed_at`, `error`
and every other column keep their values and the reason argument is
discarded (only `completed`/`failed` write `completed_at`/`error`); hence
the stop endpoint, which passes 'Manually stopped by user', leaves the
row identical except for `status := "stopped"`. -/
theorem stop_updates_only_status :
    (∀ (row : TestRow) (reason : Option String) (now : Int),
        updateTestStatusRow row "stopped" reason now = { row with status := "stopped" })
    ∧ (∀ (sys : Sys) (tid : String) (row : TestRow) (now : Int),
        getTestDb sys.db tid = some row → row.status = "running" →
        getTestDb (stopHandler sys tid now).1.db tid
          = some { row with status := "stopped" }) := by
  refine ⟨updateTestStatusRow_stopped, ?_⟩
  intro sys tid row now hrow hrun
  simp [stopHandler, hrow, hrun, getTestDb_updateDb, updateTestStatusRow_stopped]

/-- Witness for C10: stopping the running test `R` of `c6Sys` leaves every
column but status untouched (no completion stamp, no stored reason). -/
theorem stop_updates_only_status_witness :
    getTestDb (stopHandler c6Sys "R" 7).1.db "R"
      = some { id := "R", url := "https://r.example", status := "stopped", created_at := 0,
               started_at := some 0, browserbase_session_id := some "sR" } :=
  stop_updates_only_status.2 c6Sys "R"
    { id := "R", url := "https://r.example", status := "running", created_at := 0,
      started_at := some 0, browserbase_session_id := some "sR" } 7 rfl rfl

/-- C8 counterexample: in the idle state, a start request for `T` whose
`createSession()` call rejects does NOT leave a run in state `failed`: the
handler answers 500 and no test row was ever created (the row is inserted
only after the session call succeeds), so the status endpoint answers 404
and the system state is completely unchanged — contradicting the claim for
runs admitted immediately. -/
theorem session_failure_immediate_no_run :
    (startHandler initSys "T" "https://t.example" (.error "Session quota exceeded") 0).2.code
        = 500
    ∧ getTestDb
        (startHandler initSys "T" "https://t.example" (.error "Session quota exceeded") 0).1.db
        "T" = none
    ∧ (statusHandler
        (startHandler initSys "T" "https://t.example" (.error "Session quota exceeded") 0).1
        "T").code = 404
    ∧ (startHandler initSys "T" "https://t.example" (.error "Session quota exceeded") 0).1
        = initSys := by
  decide

/-- C8 as amended: when `createSession()` rejects for an immediately
admitted start request, no run is created — the endpoint answers 500
carrying the provider's message and the system state is unchanged (so
nothing can transition to `failed`).  Only when the queue-drain loop pops
a pending request and its `createSession()` rejects does that run's
database row transition to `failed` with the provider's error message
captured in the error column. -/
theorem session_failure_amended :
    (∀ (sys : Sys) (tid url msg : String) (now : Int),
        sys.active = [] →
        startHandler sys tid url (.error msg) now
          = (sys, { code := 500,
                    body := [("error", "Failed to start test"), ("message", msg)] }))
    ∧ (∀ (sessions : String → Except String String) (sys : Sys)
        (tid url msg : String) (row : TestRow) (now : Int),
        sys.isProcessingQueue = false →
        sys.active = [] →
        sys.queue = [(tid, url)] →
        sessions tid = .error msg →
        getTestDb sys.db tid = some row →
        (getTestDb (processQueue sessions now sys).db tid).map TestRow.status
            = some "failed"
        ∧ (getTestDb (processQueue sessions now sys).db tid).map TestRow.error
            = some (some msg)) := by
  constructor
  · intro sys tid url msg now hact
    simp [startHandler, hact]
  · intro sessions sys tid url msg row now hflag hact hq hsess hrow
    have hdb : (processQueue sessions now sys).db
        = updateDb sys.db tid "failed" (some msg) now := by
      simp [processQueue, hflag, hq, processQueueGo, hact, hsess]
    rw [hdb, getTestDb_updateDb, hrow]
    simp [updateTestStatusRow]

/-- A queued run `B` whose row exists, not yet in `activeSessions`, with a
drain about to run. -/
def c8Sys : Sys :=
  { db := [{ id := "B", url := "https://b.example", status := "queued", created_at := 0 }],
    queue := [("B", "https://b.example")] }

/-- Witness for the amended C8: immediate-path failure leaves the idle
state untouched with a 500, and a drain whose session call rejects marks
queued `B` as `failed` with the message captured. -/
theorem session_failure_amended_witness :
    startHandler initSys "W" "https://w.example" (.error "no sessions left") 0
      = (initSys, { code := 500,
                    body := [("error", "Failed to start test"),
                             ("message", "no sessions left")] })
    ∧ (getTestDb (processQueue (fun _ => .error "no sessions left") 0 c8Sys).db "B").map
        TestRow.status = some "failed" :=
  ⟨session_failure_amended.1 initSys "W" "https://w.example" "no sessions left" 0 rfl,
   (session_failure_amended.2 (fun _ => .error "no sessions left") c8Sys
      "B" "https://b.example" "no sessions left"
      { id := "B", url := "https://b.example", status := "queued", created_at := 0 }
      0 rfl rfl rfl rfl rfl).1⟩

/-! ## Recording retrieval (`browserbase-service.js` `getRecordingUrl`) -/

/-- What `browserbase.sessions.retrieve` reports: the session status and
the (truthy-checked) `endedAt` stamp. -/
structure SessInfo where
  status : String
  endedAt : Option Int := none
deriving DecidableEq

/-- The fixed URL pattern under which Browserbase exposes recordings. -/
def sessionRecordingUrl (sessionId : String) : String :=
  "https://browserbase.com/sessions/" ++ sessionId

/-- The retry loop of `getRecordingUrl` (`maxRetries = 5`): on each attempt the
session is retrieved; when it reports `COMPLETED` or an `endedAt` stamp the
URL is returned; otherwise (including a rejected retrieve) the loop retries
— and once the attempts are exhausted the function returns the URL anyway
("the recording might still be available").  It never returns a null/empty
value and never throws. -/
def getRecordingUrlGo (retrieve : Nat → Except String SessInfo) (sessionId : String) :
    Nat → Nat → String
  | 0, _ => sessionRecordingUrl sessionId
  | rem + 1, attempt =>
    match retrieve attempt with
    | .ok s =>
      if s.status = "COMPLETED" || s.endedAt.isSome then sessionRecordingUrl sessionId
      else getRecordingUrlGo retrieve sessionId rem (attempt + 1)
    | .error _ => getRecordingUrlGo retrieve sessionId rem (attempt + 1)

def getRecordingUrl (retrieve : Nat → Except String SessInfo) (sessionId : String) :
    String :=
  getRecordingUrlGo retrieve sessionId 5 1

theorem getRecordingUrlGo_eq (retrieve : Nat → Except String SessInfo)
    (sessionId : String) (rem attempt : Nat) :
    getRecordingUrlGo retrieve sessionId rem attempt = sessionRecordingUrl sessionId := by
  induction rem generalizing attempt with
  | zero => rfl
  | succ n ih =>
    unfold getRecordingUrlGo
    match retrieve attempt with
    | .ok s =>
      by_cases h : (s.status = "COMPLETED" || s.endedAt.isSome : Bool)
      · simp [h]
      · simp [h, ih]
    | .error e => exact ih (attempt + 1)

/-- `GET /test/:testId/recording`: 404 if the test is unknown, 400 if it has
no (truthy) stored session id, 404 if the looked-up recording URL is falsy,
else 200 with the URL. -/
def recordingHandler (sys : Sys) (testId : String)
    (retrieve : Nat → Except String SessInfo) : Resp :=
  match getTestDb sys.db testId with
  | none => { code := 404, body := [("error", "Test not found")] }
  | some row =>
    match truthyStr row.browserbase_session_id with
    | none => { code := 400, body := [("error", "No session ID")] }
    | some sid =>
      let url := getRecordingUrl retrieve sid
      if url = "" then { code := 404, body := [("error", "Recording not available")] }
      else { code := 200, body := [("testId", testId), ("recordingUrl", url)] }

/-- A completed test whose session provider never reports the session as
`COMPLETED`: its recording is still unavailable after all bounded retries. -/
def c7Sys : Sys :=
  { db := [{ id := "T", url := "https://t.example", status := "completed",
             created_at := 0, browserbase_session_id := some "s1" }] }

def c7Retrieve : Nat → Except String SessInfo :=
  fun _ => .ok { status := "RUNNING" }

/-- C7 counterexample: for test `T` the provider reports `RUNNING` on every
retrieve, so the recording is not available even after the bounded retries
— yet the recording endpoint answers 200 with a recording URL, not 404:
`getRecordingUrl` returns the URL pattern unconditionally once its retries
are exhausted, so the endpoint's `!recordingUrl → 404` branch is
unreachable for any test with a session id. -/
theorem recording_endpoint_200_when_unavailable :
    recordingHandler c7Sys "T" c7Retrieve
      = { code := 200,
          body := [("testId", "T"),
                   ("recordingUrl", "https://browserbase.com/sessions/s1")] } := by
  decide

/-- C7 as amended: the recording endpoint responds 404 only for an unknown
test id; for every test with a (truthy) session id it responds 200 with
the session URL, whether or not the recording is actually available,
because `getRecordingUrl` returns the fixed URL pattern for every oracle
behaviour — it never yields "no URL". -/
theorem recording_endpoint_amended :
    (∀ (retrieve : Nat → Except String SessInfo) (sid : String),
        getRecordingUrl retrieve sid = sessionRecordingUrl sid)
    ∧ (∀ (sys : Sys) (tid : String) (retrieve : Nat → Except String SessInfo)
        (row : TestRow) (sid : String),
        getTestDb sys.db tid = some row →
        truthyStr row.browserbase_session_id = some sid →
        recordingHandler sys tid retrieve
          = { code := 200,
              body := [("testId", tid), ("recordingUrl", sessionRecordingUrl sid)] })
    ∧ (∀ (sys : Sys) (tid : String) (retrieve : Nat → Except String SessInfo),
        getTestDb sys.db tid = none → (recordingHandler sys tid retrieve).code = 404) := by
  refine ⟨fun retrieve sid => getRecordingUrlGo_eq retrieve sid 5 1, ?_, ?_⟩
  · intro sys tid retrieve row sid hrow hsid
    have hne : sessionRecordingUrl sid ≠ "" := by
      intro h
      have hlen := congrArg String.length h
      rw [sessionRecordingUrl, String.length_append] at hlen
      have h0 : 0 < ("https://browserbase.com/sessions/" : String).length := by decide
      simp at hlen
      omega
    simp [recordingHandler, hrow, hsid, getRecordingUrl, getRecordingUrlGo_eq, hne]
  · intro sys tid retrieve hrow
    simp [recordingHandler, hrow]

/-- Witness for the amended C7 at a concrete state and oracle. -/
theorem recording_endpoint_amended_witness :
    recordingHandler c7Sys "T" (fun _ => .error "retrieve failed")
      = { code := 200,
          body := [("testId", "T"), ("recordingUrl", sessionRecordingUrl "s1")] } :=
  recording_endpoint_amended.2.1 c7Sys "T" (fun _ => .error "retrieve failed")
    { id := "T", url := "https://t.example", status := "completed", created_at := 0,
      browserbase_session_id := some "s1" } "s1" rfl rfl

/-! ## Agent service (`agent-service.js`: `executeAction`, `testWebsite`)

The Playwright page is abstracted by an oracle: for the single browser
call an action performs, `some msg` means the call rejects with that
message (element not found, timeout, navigation error), `none` means it
succeeds.  `executeAction`'s own try/catch converts every throw —
including its missing-target/missing-value precondition throws — into a
`{success: false}` result, so it never propagates an exception into
`testWebsite`, and `runTestInBackground` can only reach its `failed`
branch through other calls. -/

def showOptStr : Option String → String
  | none => "undefined"
  | some s => s

def digitVal? (c : Char) : Option Nat :=
  if c.isDigit then some (c.toNat - 48) else none

def spanDigits : List Char → List Nat × List Char
  | [] => ([], [])
  | c :: cs =>
    match digitVal? c with
    | some d => ((spanDigits cs).1.cons d, (spanDigits cs).2)
    | none => ([], c :: cs)

def natFromDigits (ds : List Nat) : Nat := ds.foldl (fun a d => a * 10 + d) 0

def wsDrop : List Char → List Char
  | [] => []
  | c :: cs => if c = ' ' ∨ c = '\t' ∨ c = '\n' ∨ c = '\r' then wsDrop cs else c :: cs

/-- `parseInt` on a string: leading whitespace, optional sign, leading
decimal digits; `none` is JS `NaN`. -/
def jsParseInt (s : String) : Option Int :=
  let cs := wsDrop s.toList
  let signed : Int × List Char :=
    match cs with
    | '-' :: r => (-1, r)
    | '+' :: r => (1, r)
    | _ => (1, cs)
  let ds := (spanDigits signed.2).1
  if ds.isEmpty then none else some (signed.1 * (natFromDigits ds : Int))

/-- The catch block of `executeAction`. -/
def failToExecute (a : ActionData) (msg : String) : ExecResult :=
  { success := false, message := "Failed to execute " ++ a.action, error := some msg }

/-- `executeAction(page, action)`: the switch over the action kind.  The
`scroll` distance (`-500` for `up`, `500` otherwise) and the `wait`
duration (`parseInt(value) || 1000`) only shape the success message. -/
def executeAction (pageErr : Option String) (a : ActionData) : ExecResult :=
  if a.action = "click" then
    if !(truthyStr a.target).isSome then
      failToExecute a "Click action requires a target selector"
    else
      match pageErr with
      | some msg => failToExecute a msg
      | none => { success := true, message := "Clicked on " ++ showOptStr a.target }
  else if a.action = "type" then
    if !(truthyStr a.target).isSome then
      failToExecute a "Type action requires a target selector"
    else if !(truthyStr a.value).isSome then
      failToExecute a "Type action requires a value"
    else
      match pageErr with
      | some msg => failToExecute a msg
      | none =>
        { success := true,
          message := "Typed \"" ++ showOptStr a.value ++ "\" into " ++ showOptStr a.target }
  else if a.action = "scroll" then
    match pageErr with
    | some msg => failToExecute a msg
    | none => { success := true, message := "Scrolled " ++ showOptStr a.target }
  else if a.action = "navigate" then
    if !(truthyStr a.target).isSome then
      failToExecute a "Navigate action requires a target URL"
    else
      match pageErr with
      | some msg => failToExecute a msg
      | none => { success := true, message := "Navigated to " ++ showOptStr a.target }
  else if a.action = "wait" then
    let duration : Int :=
      match a.value.bind jsParseInt with
      | some d => if d = 0 then 1000 else d
      | none => 1000
    match pageErr with
    | some msg => failToExecute a msg
    | none => { success := true, message := "Waited for " ++ toString duration ++ "ms" }
  else if a.action = "complete" then
    { success := true, message := "Testing complete" }
  else
    { success := false, message := "Unknown action: " ++ a.action }

/-- `maxActions = 15` — the step cap of the `testWebsite` loop. -/
def maxActions : Nat := 15

def completeResult : ExecResult := { success := true, message := "Testing completed by AI" }

/-- The `while (actionCount < maxActions)` loop of `testWebsite`:
`decision i` is the parsed model decision of iteration `i` (from
`analyzeAndAct`), `pageErr i` the Playwright outcome for that iteration's
action, `ctx i` the page context captured before deciding and `ts i` the
timestamp.  A `complete` decision logs a final successful entry and
breaks; any other decision is executed and logged — successful or not —
and the loop continues. -/
def runLoop (decision : Nat → ActionData) (pageErr : Nat → Option String)
    (ctx : Nat → LogContext) (ts : Nat → Int) : Nat → Nat → List ActionLogEntry
  | 0, _ => []
  | rem + 1, i =>
    let a := decision i
    if a.action = "complete" then
      [{ timestamp := ts i, action := a, result := completeResult, context := ctx i }]
    else
      { timestamp := ts i, action := a, result := executeAction (pageErr i) a,
        context := ctx i }
        :: runLoop decision pageErr ctx ts rem (i + 1)

def testWebsite (decision : Nat → ActionData) (pageErr : Nat → Option String)
    (ctx : Nat → LogContext) (ts : Nat → Int) : List ActionLogEntry :=
  runLoop decision pageErr ctx ts maxActions 0

/-- The entry the loop logs at iteration `i`. -/
def loopEntry (decision : Nat → ActionData) (pageErr : Nat → Option String)
    (ctx : Nat → LogContext) (ts : Nat → Int) (i : Nat) : ActionLogEntry :=
  let a := decision i
  if a.action = "complete" then
    { timestamp := ts i, action := a, result := completeResult, context := ctx i }
  else
    { timestamp := ts i, action := a, result := executeAction (pageErr i) a, context := ctx i }

theorem runLoop_map_action (decision : Nat → ActionData)
    (p₁ p₂ : Nat → Option String) (ctx : Nat → LogContext) (ts : Nat → Int) :
    ∀ (rem i : Nat),
      (runLoop decision p₁ ctx ts rem i).map ActionLogEntry.action
        = (runLoop decision p₂ ctx ts rem i).map ActionLogEntry.action := by
  intro rem
  induction rem with
  | zero => intro i; rfl
  | succ n ih =>
    intro i
    unfold runLoop
    by_cases h : (decision i).action = "complete"
    · simp [h]
    · simp [h, ih]

theorem runLoop_getElem? (decision : Nat → ActionData) (pageErr : Nat → Option String)
    (ctx : Nat → LogContext) (ts : Nat → Int) :
    ∀ (rem i j : Nat), j < (runLoop decision pageErr ctx ts rem i).length →
      (runLoop decision pageErr ctx ts rem i)[j]?
        = some (loopEntry decision pageErr ctx ts (i + j)) := by
  intro rem
  induction rem with
  | zero => intro i j h; simp [runLoop] at h
  | succ n ih =>
    intro i j h
    by_cases hc : (decision i).action = "complete"
    · have hj : j = 0 := by
        unfold runLoop at h
        simp [hc] at h
        exact h
      subst hj
      unfold runLoop
      simp [hc, loopEntry]
    · match j with
      | 0 =>
        unfold runLoop
        simp [hc, loopEntry]
      | j' + 1 =>
        have h' : j' < (runLoop decision pageErr ctx ts n (i + 1)).length := by
          unfold runLoop at h
          simp [hc] at h
          omega
        have hrec := ih (i + 1) j' h'
        have harith : i + 1 + j' = i + (j' + 1) := by omega
        rw [harith] at hrec
        unfold runLoop
        simpa [hc] using hrec

/-- C5: an individual action's execution failure never terminates the
AI-testing loop and is never escalated: (1) which decisions the loop
processes — hence when it stops — is independent of every action's
execution outcome; (2) for every non-`complete` action whose browser call
rejects, `executeAction` returns (does not throw) a result with
`success = false`; and (3) the loop logs precisely one entry per processed
decision, carrying that `executeAction` result, so a failed action is
recorded as an unsuccessful `ActionLogEntry` while the loop proceeds. -/
theorem action_failure_does_not_stop_loop :
    (∀ (decision : Nat → ActionData) (p₁ p₂ : Nat → Option String)
        (ctx : Nat → LogContext) (ts : Nat → Int),
        (testWebsite decision p₁ ctx ts).map ActionLogEntry.action
          = (testWebsite decision p₂ ctx ts).map ActionLogEntry.action)
    ∧ (∀ (msg : String) (a : ActionData), a.action ≠ "complete" →
        (executeAction (some msg) a).success = false)
    ∧ (∀ (decision : Nat → ActionData) (pageErr : Nat → Option String)
        (ctx : Nat → LogContext) (ts : Nat → Int) (j : Nat)
        (h : j < (testWebsite decision pageErr ctx ts).length),
        (testWebsite decision pageErr ctx ts).get ⟨j, h⟩
          = loopEntry decision pageErr ctx ts j) := by
  refine ⟨?_, ?_, ?_⟩
  · intro decision p₁ p₂ ctx ts
    exact runLoop_map_action decision p₁ p₂ ctx ts maxActions 0
  · intro msg a ha
    unfold executeAction
    split_ifs <;> simp_all [failToExecute]
  · intro decision pageErr ctx ts j h
    have h2 := runLoop_getElem? decision pageErr ctx ts maxActions 0 j h
    rw [Nat.zero_add] at h2
    have h3 : (testWebsite decision pageErr ctx ts)[j]?
        = some ((testWebsite decision pageErr ctx ts).get ⟨j, h⟩) := by
      rw [List.get_eq_getElem]
      exact List.getElem?_eq_getElem h
    exact Option.some.inj (h3.symm.trans h2)

def c5Decision : Nat → ActionData := fun _ => { action := "click", target := some "#btn" }
def c5PageErr : Nat → Option String := fun _ => some "element not found"
def c5Ctx : Nat → LogContext := fun _ => { url := some "https://x.example" }
def c5Ts : Nat → Int := fun i => (i : Int)

/-- Witness for C5: a clicked element that is never found is logged as an
unsuccessful entry and the loop still runs to its step cap. -/
theorem action_failure_does_not_stop_loop_witness :
    (executeAction (some "element not found")
        { action := "click", target := some "#btn" }).success = false
    ∧ (testWebsite c5Decision c5PageErr c5Ctx c5Ts).get ⟨0, by decide⟩
        = loopEntry c5Decision c5PageErr c5Ctx c5Ts 0 :=
  ⟨action_failure_does_not_stop_loop.2.1 "element not found"
      { action := "click", target := some "#btn" } (by decide),
   action_failure_does_not_stop_loop.2.2 c5Decision c5PageErr c5Ctx c5Ts 0 (by decide)⟩

/-! ## Decision client (`agent-service.js` `analyzeAndAct`, parsing stage)

The model's text response is scanned with the greedy regular expression
for a brace-delimited block, which is then fed to `JSON.parse`.  The JS
value `JSON.parse` produces is modelled by `Json`; `JSON.parse` throwing
is modelled by the parser returning `none`. -/

inductive Json where
  | null : Json
  | bool : Bool → Json
  | num : ℚ → Json
  | str : String → Json
  | arr : List Json → Json
  | obj : List (String × Json) → Json

def hexDigit? (c : Char) : Option Nat :=
  if c.isDigit then some (c.toNat - 48)
  else if 'a' ≤ c ∧ c ≤ 'f' then some (c.toNat - 87)
  else if 'A' ≤ c ∧ c ≤ 'F' then some (c.toNat - 55)
  else none

def escChar? : Char → Option Char
  | '"' => some '"'
  | '\\' => some '\\'
  | '/' => some '/'
  | 'b' => some (Char.ofNat 8)
  | 'f' => some (Char.ofNat 12)
  | 'n' => some '\n'
  | 'r' => some '\r'
  | 't' => some '\t'
  | _ => none

/-- Body of a JSON string literal, after the opening quote: returns the
decoded characters and the remainder after the closing quote. -/
def strBody : List Char → Option (List Char × List Char)
  | [] => none
  | '"' :: rest => some ([], rest)
  | '\\' :: 'u' :: a :: b :: c :: d :: rest =>
    match hexDigit? a, hexDigit? b, hexDigit? c, hexDigit? d with
    | some va, some vb, some vc, some vd =>
      (strBody rest).map (fun p => (Char.ofNat (((va * 16 + vb) * 16 + vc) * 16 + vd) :: p.1, p.2))
    | _, _, _, _ => none
  | '\\' :: e :: rest =>
    match escChar? e with
    | some ch => (strBody rest).map (fun p => (ch :: p.1, p.2))
    | none => none
  | c :: rest =>
    if c.toNat < 32 then none
    else (strBody rest).map (fun p => (c :: p.1, p.2))

def expTail (cs : List Char) : Option (Int × List Char) :=
  let signed : Int × List Char :=
    match cs with
    | '+' :: r => (1, r)
    | '-' :: r => (-1, r)
    | _ => (1, cs)
  let ds := spanDigits signed.2
  if ds.1.isEmpty then none else some (signed.1 * (natFromDigits ds.1 : Int), ds.2)

/-- A JSON number, as an exact rational. -/
def numberToken (cs : List Char) : Option (ℚ × List Char) :=
  let signed : ℚ × List Char :=
    match cs with
    | '-' :: r => (-1, r)
    | _ => (1, cs)
  let ip := spanDigits signed.2
  if ip.1.isEmpty then none
  else
    let withFrac : Option (ℚ × List Char) :=
      match ip.2 with
      | '.' :: r =>
        let fp := spanDigits r
        if fp.1.isEmpty then none
        else some ((natFromDigits ip.1 : ℚ)
                    + (natFromDigits fp.1 : ℚ) / ((10 : ℚ) ^ fp.1.length), fp.2)
      | _ => some ((natFromDigits ip.1 : ℚ), ip.2)
    match withFrac with
    | none => none
    | some (base, cs2) =>
      match cs2 with
      | 'e' :: r =>
        (expTail r).map (fun p => (signed.1 * base * (10 : ℚ) ^ p.1, p.2))
      | 'E' :: r =>
        (expTail r).map (fun p => (signed.1 * base * (10 : ℚ) ^ p.1, p.2))
      | _ => some (signed.1 * base, cs2)

mutual
def parseVal : Nat → List Char → Option (Json × List Char)
  | 0, _ => none
  | fuel + 1, cs =>
    match wsDrop cs with
    | 'n' :: 'u' :: 'l' :: 'l' :: r => some (.null, r)
    | 't' :: 'r' :: 'u' :: 'e' :: r => some (.bool true, r)
    | 'f' :: 'a' :: 'l' :: 's' :: 'e' :: r => some (.bool false, r)
    | '"' :: r => (strBody r).map (fun p => (.str (String.mk p.1), p.2))
    | '[' :: r =>
      match wsDrop r with
      | ']' :: r2 => some (.arr [], r2)
      | r2 => (parseItems fuel r2).map (fun p => (.arr p.1, p.2))
    | '{' :: r =>
      match wsDrop r with
      | '}' :: r2 => some (.obj [], r2)
      | r2 => (parseFields fuel r2).map (fun p => (.obj p.1, p.2))
    | c :: r =>
      if c = '-' ∨ c.isDigit then (numberToken (c :: r)).map (fun p => (.num p.1, p.2))
      else none
    | [] => none

def parseItems : Nat → List Char → Option (List Json × List Char)
  | 0, _ => none
  | fuel + 1, cs =>
    match parseVal fuel cs with
    | none => none
    | some (v, r) =>
      match wsDrop r with
      | ',' :: r2 => (parseItems fuel r2).map (fun p => (v :: p.1, p.2))
      | ']' :: r2 => some ([v], r2)
      | _ => none

def parseFields : Nat → List Char → Option (List (String × Json) × List Char)
  | 0, _ => none
  | fuel + 1, cs =>
    match wsDrop cs with
    | '"' :: r =>
      match strBody r with
      | none => none
      | some (k, r1) =>
        match wsDrop r1 with
        | ':' :: r2 =>
          match parseVal fuel r2 with
          | none => none
          | some (v, r3) =>
            match wsDrop r3 with
            | ',' :: r4 => (parseFields fuel r4).map (fun p => ((String.mk k, v) :: p.1, p.2))
            | '}' :: r4 => some ([(String.mk k, v)], r4)
            | _ => none
        | _ => none
    | _ => none
end

/-- `JSON.parse` on a candidate: a single value consuming the whole input
(modulo surrounding whitespace); `none` models a thrown `SyntaxError`. -/
def jsonParse (cs : List Char) : Option Json :=
  match parseVal (2 * cs.length + 2) cs with
  | some (v, rest) => if (wsDrop rest).isEmpty then some v else none
  | none => none

def dropToOpenBrace : List Char → Option (List Char)
  | [] => none
  | c :: cs => if c = '{' then some (c :: cs) else dropToOpenBrace cs

def keepToCloseRev : List Char → Option (List Char)
  | [] => none
  | c :: cs => if c = '}' then some (c :: cs) else keepToCloseRev cs

/-- The greedy brace regex of `analyzeAndAct`: the match runs from the
first opening brace of the text to the last closing brace after it (the
engine backtracks from the end of the input); `none` when the text has no
opening brace with a closing brace somewhere after it. -/
def braceMatch (cs : List Char) : Option (List Char) :=
  match dropToOpenBrace cs with
  | none => none
  | some tailPart => (keepToCloseRev tailPart.reverse).map List.reverse

/-- Parsing stage of `analyzeAndAct`: regex-extract a brace block from the
model's text response and `JSON.parse` it; when no block can be located
the code substitutes `{action:'complete', reasoning:'Could not parse
action from response'}` and when `JSON.parse` throws it substitutes
`{action:'complete', reasoning:'Invalid response format'}`.  The inference
network call and its errors are upstream of this function; the parse path
itself never throws. -/
def analyzeAndAct (responseText : String) : Json :=
  match braceMatch responseText.toList with
  | none => .obj [("action", .str "complete"),
                  ("reasoning", .str "Could not parse action from response")]
  | some m =>
    match jsonParse m with
    | none => .obj [("action", .str "complete"),
                    ("reasoning", .str "Invalid response format")]
    | some v => v

/-- The JSON value the source's regex-plus-parse pipeline locates in a
response, when there is one. -/
def locatedJson (responseText : String) : Option Json :=
  (braceMatch responseText.toList).bind jsonParse

def jsonField (j : Json) (k : String) : Option Json :=
  match j with
  | .obj fields => (fields.find? (fun p => p.1 = k)).map (fun p => p.2)
  | _ => none

/-- The claim's example response: the decision object embedded in prose. -/
def c4Example : String :=
  "I will test the button next. \x7b\"action\":\"click\",\"target\":\"#btn\",\"reasoning\":\"test\"\x7d That is my decision."

/-- A response with no JSON object at all. -/
def c4Prose : String := "I could not decide on an action to take."

/-- C4: the decision parsing is total on arbitrary model output — whenever
no JSON object can be located and parsed in the response, the returned
object's `action` field is `"complete"` (with a diagnostic reasoning), so
the caller's loop terminates instead of looping on garbage; whenever the
greedy brace match yields parseable JSON, exactly that value is returned.
In particular the example response with
`\x7b"action":"click","target":"#btn","reasoning":"test"\x7d` embedded in
prose returns that object, and a pure-prose response yields the
`complete` fallback. -/
theorem analyzeAndAct_parse :
    (∀ s : String, locatedJson s = none →
        jsonField (analyzeAndAct s) "action" = some (.str "complete"))
    ∧ (∀ (s : String) (v : Json), locatedJson s = some v → analyzeAndAct s = v)
    ∧ analyzeAndAct c4Example
        = .obj [("action", .str "click"), ("target", .str "#btn"),
                ("reasoning", .str "test")]
    ∧ locatedJson c4Prose = none
    ∧ analyzeAndAct c4Prose
        = .obj [("action", .str "complete"),
                ("reasoning", .str "Could not parse action from response")] := by
  refine ⟨?_, ?_, rfl, rfl, rfl⟩
  · intro s h
    unfold locatedJson at h
    unfold analyzeAndAct
    rcases hb : braceMatch s.toList with _ | m
    · rfl
    · rw [hb] at h
      simp only [Option.some_bind] at h
      simp [h, jsonField]
  · intro s v h
    unfold locatedJson at h
    unfold analyzeAndAct
    rcases hb : braceMatch s.toList with _ | m
    · rw [hb] at h
      simp at h
    · rw [hb] at h
      simp only [Option.some_bind] at h
      simp [h]

/-- Witness for C4: the fallback branch taken on a concrete garbage
response terminates the caller's loop. -/
theorem analyzeAndAct_parse_witness :
    jsonField (analyzeAndAct "no json here") "action" = some (.str "complete") :=
  analyzeAndAct_parse.1 "no json here" rfl

end Gusto
